import Mathlib

/-!
Shallow embedding of the resource-resolution and instance-lifecycle core of
karpenter-provider-cloudstack, together with proofs about its selector
resolution, deduplication, provider-ID formatting, tag building, instance
lifecycle and cache-guard behaviour.

Go strings are modelled as Lean `String` (except provider IDs, where the
character-level split is modelled over `List Char`), Go maps as association
lists `List (String × String)` with unique keys, Go slices as `List`,
fallible Go functions as `Except String _`.  The CloudStack backend is an
external collaborator and is abstracted as explicit inputs (inventories,
response oracles); the logic applied to those responses is translated
directly from the source.
-/

/-! ## Data model (pkg/providers/{network,template,instancetype,zone}, apis/v1) -/

/-- Embeds `network.Network` (pkg/providers/network/network.go). -/
structure Network where
  id : String
  name : String
  zone : String := ""
  zoneID : String := ""
  type : String := ""
  state : String
  cidr : String := ""
  gateway : String := ""
  tags : List (String × String) := []
  deriving DecidableEq

/-- Embeds `template.Template` (pkg/providers/template/template.go). -/
structure Template where
  id : String
  name : String
  displayText : String := ""
  zone : String := ""
  zoneID : String := ""
  osType : String := ""
  osTypeName : String := ""
  status : String
  isReady : Bool
  isPublic : Bool := false
  isFeatured : Bool := false
  tags : List (String × String) := []
  deriving DecidableEq

/-- Embeds the fields of `cloudstack.ServiceOffering` used by the
instance-type provider (pkg/providers/instancetype/instancetype.go). -/
structure ServiceOffering where
  id : String
  name : String
  cpunumber : Nat := 0
  cpuspeed : Nat := 0
  memory : Nat := 0
  networkrate : Nat := 0
  deriving DecidableEq

/-- Embeds `zone.Zone` (pkg/providers/zone/zone.go). -/
structure Zone where
  id : String
  name : String
  networkType : String := ""
  allocationState : String
  localStorageEnabled : Bool := false
  securityGroupsEnabled : Bool := false
  deriving DecidableEq

/-- Embeds `v1.NetworkSelectorTerm` (apis/v1 nodeclass types, src/unnamed/part_003). -/
structure NetworkSelectorTerm where
  tags : List (String × String) := []
  id : String := ""
  name : String := ""
  deriving DecidableEq

/-- Embeds `v1.ServiceOfferingSelectorTerm` (src/unnamed/part_003). -/
structure ServiceOfferingSelectorTerm where
  tags : List (String × String) := []
  id : String := ""
  name : String := ""
  deriving DecidableEq

/-- Embeds `v1.TemplateSelectorTerm` (src/unnamed/part_003). -/
structure TemplateSelectorTerm where
  tags : List (String × String) := []
  id : String := ""
  name : String := ""
  osType : String := ""
  deriving DecidableEq

/-! ## Tag matching (network.matchesTags / template.matchesTags) -/

/-- Embeds `matchesTags` from pkg/providers/network/network.go:208 and the
textually identical copy in pkg/providers/template/template.go:236: every
selector key must exist on the resource; the selector value must equal the
resource value exactly, or be the wildcard `"*"`. -/
def matchesTags (resourceTags selectorTags : List (String × String)) : Bool :=
  selectorTags.all fun kv =>
    match resourceTags.lookup kv.1 with
    | none => false
    | some rv => kv.2 == "*" || rv == kv.2

/-! ## Deduplication (lo.UniqBy keeps the first occurrence of each key) -/

/-- Accumulator form of `lo.UniqBy`: keeps an element iff its key was not
seen before, scanning left to right (the seen-keys map of the library
becomes a list of seen keys). -/
def uniqByAux {α β : Type} [DecidableEq β] (f : α → β) (seen : List β) :
    List α → List α
  | [] => []
  | x :: xs =>
    if f x ∈ seen then uniqByAux f seen xs
    else x :: uniqByAux f (f x :: seen) xs

/-- Embeds `lo.UniqBy`: first-seen-order deduplication by key. -/
def uniqBy {α β : Type} [DecidableEq β] (f : α → β) (l : List α) : List α :=
  uniqByAux f [] l

/-! ## Network resolution (pkg/providers/network/network.go) -/

/-- Matches collected for one selector term inside `ResolveNetworks`
(network.go:136-166): ID first (`lo.Find`, first match), then Name, then all
tag-matching candidates. -/
def networkTermMatches (allNetworks : List Network) (t : NetworkSelectorTerm) :
    List Network :=
  match (if t.id != "" then allNetworks.find? (fun n => n.id == t.id) else none) with
  | some n => [n]
  | none =>
    match (if t.name != "" then allNetworks.find? (fun n => n.name == t.name) else none) with
    | some n => [n]
    | none =>
      if t.tags.length > 0 then
        allNetworks.filter (fun n => matchesTags n.tags t.tags)
      else []

/-- Post-filter of `ResolveNetworks` (network.go:174-176). -/
def networkStateOk (n : Network) : Bool :=
  n.state == "Implemented" || n.state == "Setup"

/-- Embeds `DefaultProvider.ResolveNetworks` (network.go:128-185), with the
zone inventory (the result of `List`) passed explicitly: accumulate matches
per term, dedup by ID, keep only Implemented/Setup networks, and error if
nothing is left. -/
def ResolveNetworks (allNetworks : List Network) (terms : List NetworkSelectorTerm)
    (zone : String) : Except String (List Network) :=
  let matched := terms.flatMap (networkTermMatches allNetworks)
  let deduped := uniqBy Network.id matched
  let filtered := deduped.filter networkStateOk
  if filtered.isEmpty then
    .error ("no networks matched the selector terms in zone " ++ zone)
  else
    .ok filtered

/-! ## Template resolution (pkg/providers/template/template.go) -/

/-- Matches collected for one selector term inside `ResolveTemplates`
(template.go:153-194): ID first, then Name; otherwise the candidate set is
narrowed by OSType (matching `OSTypeName` or `OSType`), then tag-filtered;
a term with only OSType set selects every OSType-matching template. -/
def templateTermMatches (allTemplates : List Template) (t : TemplateSelectorTerm) :
    List Template :=
  match (if t.id != "" then allTemplates.find? (fun x => x.id == t.id) else none) with
  | some x => [x]
  | none =>
    match (if t.name != "" then allTemplates.find? (fun x => x.name == t.name) else none) with
    | some x => [x]
    | none =>
      let templates :=
        if t.osType != "" then
          allTemplates.filter (fun x => x.osTypeName == t.osType || x.osType == t.osType)
        else allTemplates
      if t.tags.length > 0 then
        templates.filter (fun x => matchesTags x.tags t.tags)
      else if t.osType != "" then templates
      else []

/-- Post-filter of `ResolveTemplates` (template.go:202-204). -/
def templateReady (x : Template) : Bool :=
  x.isReady && x.status == "Download Complete"

/-- Embeds `DefaultProvider.ResolveTemplates` (template.go:145-213), with the
zone inventory passed explicitly. -/
def ResolveTemplates (allTemplates : List Template) (terms : List TemplateSelectorTerm)
    (zone : String) : Except String (List Template) :=
  let matched := terms.flatMap (templateTermMatches allTemplates)
  let deduped := uniqBy Template.id matched
  let filtered := deduped.filter templateReady
  if filtered.isEmpty then
    .error ("no templates matched the selector terms in zone " ++ zone)
  else
    .ok filtered

/-! ## Service-offering resolution (pkg/providers/instancetype/instancetype.go) -/

/-- Matches collected for one selector term inside `filterServiceOfferings`
(instancetype.go:135-161): ID first, then Name; tag matching is not
implemented in the source ("we'll skip this for now"), so a tags-only term
matches nothing. -/
def offeringTermMatches (offerings : List ServiceOffering)
    (t : ServiceOfferingSelectorTerm) : List ServiceOffering :=
  match (if t.id != "" then offerings.find? (fun o => o.id == t.id) else none) with
  | some o => [o]
  | none =>
    match (if t.name != "" then offerings.find? (fun o => o.name == t.name) else none) with
    | some o => [o]
    | none => []

/-- Embeds `DefaultProvider.filterServiceOfferings` (instancetype.go:132-169):
per-term matches accumulated, then deduplicated by ID.  No emptiness check. -/
def filterServiceOfferings (offerings : List ServiceOffering)
    (terms : List ServiceOfferingSelectorTerm) : List ServiceOffering :=
  uniqBy ServiceOffering.id (terms.flatMap (offeringTermMatches offerings))

/-- Embeds `DefaultProvider.resolveServiceOfferings` (instancetype.go:95-129)
with the fetched inventory passed explicitly: on a successful fetch (or cache
hit) it returns the filtered list unconditionally — it never reports a
no-match error, unlike the network and template resolvers. -/
def resolveServiceOfferings (offerings : List ServiceOffering)
    (terms : List ServiceOfferingSelectorTerm) : Except String (List ServiceOffering) :=
  .ok (filterServiceOfferings offerings terms)

/-! ## Zone lookup and validation (pkg/providers/zone/zone.go) -/

/-- Embeds `zone.DefaultProvider.GetByName` (zone.go:129-144) with the zone
inventory passed explicitly: find by name, error when absent.  It performs no
allocation-state check. -/
def zoneGetByName (zones : List Zone) (name : String) : Except String Zone :=
  match zones.find? (fun z => z.name == name) with
  | some z => .ok z
  | none => .error ("zone " ++ name ++ " not found")

/-- Embeds `zone.DefaultProvider.ValidateZone` (zone.go:147-166): find by ID
or name, then require `AllocationState == "Enabled"`. -/
def validateZone (zones : List Zone) (zoneIdentifier : String) : Except String Unit :=
  match zones.find? (fun z => z.id == zoneIdentifier || z.name == zoneIdentifier) with
  | none => .error ("zone " ++ zoneIdentifier ++ " not found")
  | some z =>
    if z.allocationState != "Enabled" then
      .error ("zone " ++ zoneIdentifier ++ " is not enabled (state: " ++ z.allocationState ++ ")")
    else .ok ()

/-! ## Tag keys (pkg/apis/v1/labels.go) -/

/-- Embeds `v1.ManagedByTagKey` (labels.go). -/
def ManagedByTagKey : String := "karpenter.sh/managed-by"

/-- Embeds `v1.ClusterNameTagKey` (labels.go). -/
def ClusterNameTagKey : String := "kubernetes.io/cluster"

/-- Embeds `v1.NodeClassTagKey` (labels.go). -/
def NodeClassTagKey : String := "karpenter.k8s.cloudstack/nodeclass"

/-- Embeds `v1.NodeClaimTagKey` (labels.go). -/
def NodeClaimTagKey : String := "karpenter.sh/nodeclaim"

/-- Embeds `v1.NodePoolTagKey` (labels.go). -/
def NodePoolTagKey : String := "karpenter.sh/nodepool"

/-- Embeds `karpv1.NodePoolLabelKey` from the upstream karpenter API
(`karpenter.sh/nodepool`), read by `buildTags` and `instanceToNodeClaim`. -/
def NodePoolLabelKey : String := "karpenter.sh/nodepool"

/-! ## NodeClass spec (src/unnamed/part_003) -/

/-- Embeds `v1.CloudStackNodeClassSpec` (src/unnamed/part_003).  Optional
pointer fields become `Option`; the user tag map becomes an association
list. -/
structure CloudStackNodeClassSpec where
  zone : String
  networkSelectorTerms : List NetworkSelectorTerm := []
  serviceOfferingSelectorTerms : List ServiceOfferingSelectorTerm := []
  templateSelectorTerms : List TemplateSelectorTerm := []
  userData : Option String := none
  tags : List (String × String) := []
  rootDiskSize : Option Int := none
  diskOffering : Option String := none
  sshKeyPair : Option String := none
  deriving DecidableEq

/-- Embeds the CRD validation rules on `CloudStackNodeClassSpec.Tags`
(src/unnamed/part_003:61-64): keys must be non-empty and must not be
`karpenter.sh/nodepool`, `karpenter.sh/nodeclaim`, or
`karpenter.k8s.cloudstack/nodeclass`.  No other key is restricted. -/
def specTagsAllowed (tags : List (String × String)) : Bool :=
  tags.all fun kv =>
    kv.1 != "" && kv.1 != "karpenter.sh/nodepool" && kv.1 != "karpenter.sh/nodeclaim"
      && kv.1 != "karpenter.k8s.cloudstack/nodeclass"

/-! ## NodeClass reconciliation (nodeclass controller, src/pkg/apis/v1/labels.go
second document, `Controller.Reconcile`) -/

/-- Operations attempted by one `Reconcile` pass, in order. -/
inductive ReconcileOp
  | zoneValidation
  | networkResolution
  | templateResolution
  deriving DecidableEq

/-- Embeds the resolution sequence of `Controller.Reconcile` (labels.go file,
lines 147-210 of the nodeclass controller document): zone validation is the
call `zoneProvider.GetByName(spec.Zone)` — its failure sets reason
`ZoneValidationFailed`; then `ResolveNetworks` (failure reason
`NetworkResolutionFailed`), then `ResolveTemplates` (failure reason
`TemplateResolutionFailed`), else `Ready`.  The returned list records which
operations were attempted, in order; the Kubernetes status writes are
abstracted away and the inventories are passed explicitly. -/
def reconcileNodeClass (zones : List Zone) (networks : List Network)
    (templates : List Template) (spec : CloudStackNodeClassSpec) :
    String × List ReconcileOp :=
  match zoneGetByName zones spec.zone with
  | .error _ => ("ZoneValidationFailed", [.zoneValidation])
  | .ok _ =>
    match ResolveNetworks networks spec.networkSelectorTerms spec.zone with
    | .error _ => ("NetworkResolutionFailed", [.zoneValidation, .networkResolution])
    | .ok _ =>
      match ResolveTemplates templates spec.templateSelectorTerms spec.zone with
      | .error _ =>
        ("TemplateResolutionFailed",
          [.zoneValidation, .networkResolution, .templateResolution])
      | .ok _ =>
        ("Ready", [.zoneValidation, .networkResolution, .templateResolution])

/-! ## Provider IDs (cloudprovider document in src/pkg/apis/v1/labels.go,
`ParseProviderID` / `FormatProviderID`).  The character-level behaviour of
`strings.Split(s, "/")` is modelled over `List Char`. -/

/-- Embeds `strings.Split(s, "/")` for a one-character separator: the list of
chunks between `/` characters (always non-empty; splitting the empty string
yields one empty chunk, as in Go). -/
def splitOnSlash (l : List Char) : List (List Char) :=
  match l with
  | [] => [[]]
  | c :: cs =>
    match splitOnSlash cs with
    | [] => [[]]
    | r :: rs => if c = '/' then [] :: r :: rs else (c :: r) :: rs

/-- Embeds `FormatProviderID` (labels.go cloudprovider document, line 605):
`"cloudstack://<zone>/<instance-id>"`. -/
def FormatProviderID (zone instanceID : List Char) : List Char :=
  "cloudstack://".data ++ zone ++ '/' :: instanceID

/-- Embeds `ParseProviderID` (labels.go cloudprovider document, lines
586-602): reject the empty string, split on `/`, reverse, and return the
first element of the reversed list (the last `/`-delimited segment). -/
def ParseProviderID (providerID : List Char) : Except String (List Char) :=
  if providerID = [] then .error "provider ID is empty"
  else
    match (splitOnSlash providerID).reverse with
    | [] => .error "invalid provider ID format"
    | p :: _ => .ok p

/-! ## Instance lifecycle (instance provider, src/unnamed/part_001) -/

/-- Embeds the fields of `cloudstack.Nic` read by the instance provider. -/
structure Nic where
  networkid : String
  ipaddress : String
  deriving DecidableEq

/-- Embeds the fields of `cloudstack.VirtualMachine` read by the instance
provider (`convertToInstance`, `waitForVMState`). -/
structure VMRecord where
  id : String
  name : String := ""
  state : String
  zonename : String := ""
  zoneid : String := ""
  serviceofferingname : String := ""
  serviceofferingid : String := ""
  templatename : String := ""
  templateid : String := ""
  nics : List Nic := []
  deriving DecidableEq

/-- Embeds `instance.Instance` (src/unnamed/part_001).  `CreatedTime` is
dropped: it only repackages the remote timestamp string and no claim
concerns it. -/
structure Instance where
  id : String
  name : String
  state : String
  zone : String
  zoneID : String
  serviceOffering : String
  serviceOfferingID : String
  template : String
  templateID : String
  networkID : String
  ipAddress : String
  tags : List (String × String)
  deriving DecidableEq

/-- Embeds `getFirstNetworkID` (part_001:426-431). -/
def getFirstNetworkID (nics : List Nic) : String :=
  match nics with
  | n :: _ => n.networkid
  | [] => ""

/-- Embeds `getFirstIPAddress` (part_001:434-439). -/
def getFirstIPAddress (nics : List Nic) : String :=
  match nics with
  | n :: _ => n.ipaddress
  | [] => ""

/-- Embeds `convertToInstance` (part_001:380-399). -/
def convertToInstance (vm : VMRecord) (tags : List (String × String)) : Instance :=
  { id := vm.id
    name := vm.name
    state := vm.state
    zone := vm.zonename
    zoneID := vm.zoneid
    serviceOffering := vm.serviceofferingname
    serviceOfferingID := vm.serviceofferingid
    template := vm.templatename
    templateID := vm.templateid
    networkID := getFirstNetworkID vm.nics
    ipAddress := getFirstIPAddress vm.nics
    tags := tags }

/-- Overwriting insertion into a Go-map modelled as an association list: the
new binding replaces any existing binding for the key. -/
def tagInsert {α : Type} (k : String) (v : α) (m : List (String × α)) :
    List (String × α) :=
  (k, v) :: m.filter (fun kv => kv.1 != k)

/-- Embeds the metadata of a `karpv1.NodeClaim` read by the instance
provider: its name and labels. -/
structure NodeClaimMeta where
  name : String
  labels : List (String × String) := []
  deriving DecidableEq

/-- Embeds `buildTags` (part_001:326-346): a base map of ownership tags
(managed-by, cluster-scoped ownership, nodeclass name, nodeclaim name),
the nodepool tag when the claim carries the nodepool label, and finally the
user tags from `nodeClass.Spec.Tags` written over the map — so a user tag
whose key collides with an ownership key overwrites it. -/
def buildTags (clusterName nodeClassName : String) (specTags : List (String × String))
    (claim : NodeClaimMeta) : List (String × String) :=
  let base :=
    [(ManagedByTagKey, "karpenter"),
     (ClusterNameTagKey ++ "/" ++ clusterName, "owned"),
     (NodeClassTagKey, nodeClassName),
     (NodeClaimTagKey, claim.name)]
  let base :=
    match claim.labels.lookup NodePoolLabelKey with
    | some nodePoolName => base ++ [(NodePoolTagKey, nodePoolName)]
    | none => base
  specTags.foldl (fun m kv => tagInsert kv.1 kv.2 m) base

/-- Side effects issued against the CloudStack backend that the claims talk
about (deploy, tag creation, destroy-with-expunge). -/
inductive CSEffect
  | deployVM (name : String)
  | createTags (vmID : String) (tags : List (String × String))
  | destroyVM (id : String) (expunge : Bool)
  deriving DecidableEq

/-- Embeds `waitForVMState` (part_001:292-324) with real time replaced by a
poll budget: `poll t` is the backend `ListVirtualMachines(id)` response at
the t-th 5-second tick, and the 5-minute deadline bounds the number of
ticks.  Budget exhausted → timeout error; backend error → propagated; empty
response → "VM not found"; otherwise the first returned VM is inspected and
the wait ends as soon as its state equals the target. -/
def waitForVMState (poll : Nat → Except String (List VMRecord))
    (vmID targetState : String) : Nat → Nat → Except String VMRecord
  | _, 0 => .error ("timeout waiting for VM " ++ vmID ++ " to reach state " ++ targetState)
  | tick, fuel + 1 =>
    match poll tick with
    | .error e => .error ("querying VM state: " ++ e)
    | .ok [] => .error ("VM " ++ vmID ++ " not found")
    | .ok (vm :: _) =>
      if vm.state == targetState then .ok vm
      else waitForVMState poll vmID targetState (tick + 1) fuel

/-- The poll budget of `Create`: a 5-minute deadline polled every 5 seconds. -/
def vmWaitPolls : Nat := 60

/-- The backend responses consumed by one `Create` call, as explicit data:
zone-ID lookup, network and template inventories (behind `ResolveNetworks` /
`ResolveTemplates`), service-offering-ID lookup, the deploy response, the
per-tick VM-list responses of the poll loop, and the tag-creation outcome. -/
structure CreateEnv where
  zoneIDOf : String → Except String String
  networks : List Network
  templates : List Template
  serviceOfferingIDOf : String → Except String String
  deployResp : Except String String
  poll : Nat → Except String (List VMRecord)
  createTagsResp : Except String Unit

/-- Embeds `DefaultProvider.Create` (part_001:87-183), returning the result
together with the backend effects it issued, in order.  Steps, as in the
source: select the first instance type (error when none), resolve the zone
ID, resolve networks and take the first, resolve templates and take the
first, resolve the service-offering ID, deploy, wait for state `"Running"`
with the 5-minute/5-second budget, then best-effort tag creation (a tagging
failure is logged, not propagated) and conversion. -/
def instanceCreate (env : CreateEnv) (spec : CloudStackNodeClassSpec)
    (nodeClassName : String) (claim : NodeClaimMeta)
    (instanceTypeNames : List String) (clusterName : String) :
    Except String Instance × List CSEffect :=
  match instanceTypeNames with
  | [] => (.error "no suitable instance type found", [])
  | instanceTypeName :: _ =>
    match env.zoneIDOf spec.zone with
    | .error e => (.error ("getting zone ID: " ++ e), [])
    | .ok _zoneID =>
      match ResolveNetworks env.networks spec.networkSelectorTerms spec.zone with
      | .error e => (.error ("resolving networks: " ++ e), [])
      | .ok networks =>
        match networks with
        | [] => (.error "no networks found", [])
        | _ :: _ =>
          match ResolveTemplates env.templates spec.templateSelectorTerms spec.zone with
          | .error e => (.error ("resolving templates: " ++ e), [])
          | .ok templates =>
            match templates with
            | [] => (.error "no templates found", [])
            | _ :: _ =>
              match env.serviceOfferingIDOf instanceTypeName with
              | .error e => (.error ("getting service offering ID: " ++ e), [])
              | .ok _serviceOfferingID =>
                let vmName := "karpenter-" ++ claim.name
                match env.deployResp with
                | .error e =>
                  (.error ("deploying virtual machine: " ++ e), [.deployVM vmName])
                | .ok vmID =>
                  match waitForVMState env.poll vmID "Running" 0 vmWaitPolls with
                  | .error e =>
                    (.error ("waiting for VM to be running: " ++ e), [.deployVM vmName])
                  | .ok vm =>
                    let tags := buildTags clusterName nodeClassName spec.tags claim
                    (.ok (convertToInstance vm tags),
                      [.deployVM vmName, .createTags vm.id tags])

/-! ## Instance Get / Delete (src/unnamed/part_001) -/

/-- Error taxonomy of the instance provider: `notFound` embeds
`cloudprovider.NewNodeClaimNotFoundError` (recognised by
`IsNodeClaimNotFoundError`), `backend` everything else. -/
inductive InstanceError
  | notFound (msg : String)
  | backend (msg : String)
  deriving DecidableEq

/-- The backend responses consumed by `Get` and `Delete`:
`ListVirtualMachines(id)` and the tags of a VM (`getTags`, whose error is
discarded by `Get` via `tags, _ :=`), plus the destroy outcome. -/
structure InstanceEnv where
  listVMs : Except String (List VMRecord)
  tagsOf : String → List (String × String)
  destroyResp : Except String Unit

/-- The per-ID instance cache, keyed as in the source by
`"instance-" ++ id`; modelled as an association list from the id itself
(the Go key prefix is a fixed injective decoration). -/
def InstanceCache : Type := List (String × Instance)

/-- Embeds `DefaultProvider.Get` (part_001:185-213), returning the result
and the updated cache: serve from cache when present; otherwise list by ID —
a backend error is wrapped, a zero-count response is the distinguished
not-found error, and otherwise the first VM is converted, cached and
returned. -/
def instanceGet (env : InstanceEnv) (cache : InstanceCache) (id : String) :
    Except InstanceError Instance × InstanceCache :=
  match cache.lookup id with
  | some inst => (.ok inst, cache)
  | none =>
    match env.listVMs with
    | .error e => (.error (.backend ("getting instance " ++ id ++ ": " ++ e)), cache)
    | .ok [] => (.error (.notFound ("instance " ++ id ++ " not found")), cache)
    | .ok (vm :: _) =>
      let inst := convertToInstance vm (env.tagsOf vm.id)
      (.ok inst, tagInsert id inst cache)

/-- Embeds `DefaultProvider.Delete` (part_001:246-276), returning the
result, the backend effects issued, and the final cache: `Get` first — a
not-found answer is treated as success with no destroy call; any other
`Get` error is propagated; otherwise destroy with the expunge flag set and,
on success, evict the instance from the ID cache. -/
def instanceDelete (env : InstanceEnv) (cache : InstanceCache) (id : String) :
    Except InstanceError Unit × List CSEffect × InstanceCache :=
  match instanceGet env cache id with
  | (.error (.notFound _), cache1) => (.ok (), [], cache1)
  | (.error (.backend e), cache1) =>
    (.error (.backend ("checking instance existence: " ++ e)), [], cache1)
  | (.ok _, cache1) =>
    match env.destroyResp with
    | .error e =>
      (.error (.backend ("destroying instance " ++ id ++ ": " ++ e)),
        [.destroyVM id true], cache1)
    | .ok _ =>
      (.ok (), [.destroyVM id true], cache1.filter (fun kv => kv.1 != id))

/-! ## Configuration hash (CloudStackNodeClass.Hash, src/unnamed/part_003)

`Hash()` is one call into the external `hashstructure` library (FormatV2)
with options `SlicesAsSets`, `IgnoreZeroValue`, `ZeroNil`.  The library is
not part of this repository, so its behaviour on this spec type is modelled
from the spec below. -/

/-- A concrete injective-enough encoding of strings into `Nat`, standing in
for the library's field hashing; only its executability matters. -/
def strCode (s : String) : Nat :=
  s.data.foldl (fun a c => a * 1000003 + (c.toNat + 1)) 7

/-- Pairing combinator for ordered field combination. -/
def hashPair (a b : Nat) : Nat :=
  (a + b) * (a + b + 1) / 2 + b

/-- Unordered (set) combination of element hashes: an XOR fold, commutative
and associative, so the result is independent of element order. -/
def xorFold (l : List Nat) : Nat :=
  l.foldr (fun a b => a ^^^ b) 0

/-- Hash of one network selector term (field-wise encoding). -/
def netTermHash (t : NetworkSelectorTerm) : Nat :=
  hashPair (xorFold (t.tags.map fun kv => hashPair (strCode kv.1) (strCode kv.2)))
    (hashPair (strCode t.id) (strCode t.name))

/-- Hash of one service-offering selector term. -/
def offTermHash (t : ServiceOfferingSelectorTerm) : Nat :=
  hashPair (xorFold (t.tags.map fun kv => hashPair (strCode kv.1) (strCode kv.2)))
    (hashPair (strCode t.id) (strCode t.name))

/-- Hash of one template selector term. -/
def tmplTermHash (t : TemplateSelectorTerm) : Nat :=
  hashPair (xorFold (t.tags.map fun kv => hashPair (strCode kv.1) (strCode kv.2)))
    (hashPair (hashPair (strCode t.id) (strCode t.name)) (strCode t.osType))

/-- Hash contribution of an optional field under `IgnoreZeroValue`: a field
left at its zero value is excluded from the hash. -/
def optFieldHash (f : Option String) : Nat :=
  match f with
  | none => 0
  | some s => strCode s

/-- Modelled from the spec: `CloudStackNodeClass.Hash` (src/unnamed/part_003:
231-237) delegates to the external `hashstructure` library, which is not in
this repository; per the spec, list-typed fields are hashed as unordered
sets (`SlicesAsSets` — here an XOR fold of element hashes) and zero-valued
fields are excluded (`IgnoreZeroValue`/`ZeroNil` — here `Option` fields
encode as 0 when absent), with the remaining fields combined in order. -/
def hashSpec (s : CloudStackNodeClassSpec) : Nat :=
  hashPair (strCode s.zone)
    (hashPair (xorFold (s.networkSelectorTerms.map netTermHash))
      (hashPair (xorFold (s.serviceOfferingSelectorTerms.map offTermHash))
        (hashPair (xorFold (s.templateSelectorTerms.map tmplTermHash))
          (hashPair (optFieldHash s.userData)
            (hashPair (xorFold (s.tags.map fun kv => hashPair (strCode kv.1) (strCode kv.2)))
              (hashPair (match s.rootDiskSize with | none => 0 | some n => n.natAbs + 1)
                (hashPair (optFieldHash s.diskOffering) (optFieldHash s.sshKeyPair))))))))

/-! ## Cache guard protocol (the double-checked-lock `List` pattern shared by
zone.go:66-88, network.go:65-95, template.go:68-142, instancetype.go:95-129)

Each caller of `List` on a cold key runs: an unlocked cache check (hit →
return), `mu.Lock()`, a second cache check under the lock (hit → return),
the backend fetch, `cache.Set`, unlock, return.  The protocol is modelled as
an interleaving transition system over thread counts: threads are symmetric,
so the state keeps how many threads are at each program point, the values
returned so far, the cache cell, the mutex, and the number of backend fetch
calls issued.  `v0` is the (deterministic, successful) backend result. -/

/-- Global state of K concurrent `List` callers racing on one cache key. -/
structure GuardState (V : Type) where
  nStart : Nat
  nWait : Nat
  nLocked : Nat
  nFetching : Nat
  doneVals : List V
  cache : Option V
  lockHeld : Bool
  fetchCount : Nat

/-- Interleaving steps of the double-checked-lock protocol: `hitFast` /
`missFast` are the unlocked cache check, `acquire` is `mu.Lock()`,
`hitLocked` is the re-check under the lock (return, unlock), `startFetch`
issues the backend call (still under the lock), `finishFetch` stores the
result in the cache, returns it and unlocks. -/
inductive GuardStep {V : Type} (v0 : V) : GuardState V → GuardState V → Prop
  | hitFast (s : GuardState V) (v : V) (h : 0 < s.nStart) (hc : s.cache = some v) :
      GuardStep v0 s { s with nStart := s.nStart - 1, doneVals := v :: s.doneVals }
  | missFast (s : GuardState V) (h : 0 < s.nStart) (hc : s.cache = none) :
      GuardStep v0 s { s with nStart := s.nStart - 1, nWait := s.nWait + 1 }
  | acquire (s : GuardState V) (h : 0 < s.nWait) (hl : s.lockHeld = false) :
      GuardStep v0 s
        { s with nWait := s.nWait - 1, nLocked := s.nLocked + 1, lockHeld := true }
  | hitLocked (s : GuardState V) (v : V) (h : 0 < s.nLocked) (hc : s.cache = some v) :
      GuardStep v0 s
        { s with nLocked := s.nLocked - 1, doneVals := v :: s.doneVals, lockHeld := false }
  | startFetch (s : GuardState V) (h : 0 < s.nLocked) (hc : s.cache = none) :
      GuardStep v0 s
        { s with nLocked := s.nLocked - 1, nFetching := s.nFetching + 1,
                 fetchCount := s.fetchCount + 1 }
  | finishFetch (s : GuardState V) (h : 0 < s.nFetching) :
      GuardStep v0 s
        { s with nFetching := s.nFetching - 1, doneVals := v0 :: s.doneVals,
                 cache := some v0, lockHeld := false }

/-- Initial state: K callers about to run `List` against a cold cache. -/
def guardInit (V : Type) (K : Nat) : GuardState V :=
  { nStart := K, nWait := 0, nLocked := 0, nFetching := 0, doneVals := [],
    cache := none, lockHeld := false, fetchCount := 0 }

/-- Reachability along interleavings of the protocol. -/
def GuardReach {V : Type} (v0 : V) : GuardState V → GuardState V → Prop :=
  Relation.ReflTransGen (GuardStep v0)

/-- Inductive invariant of the cache-guard protocol. -/
def GuardInv {V : Type} (v0 : V) (K : Nat) (s : GuardState V) : Prop :=
  s.nStart + s.nWait + s.nLocked + s.nFetching + s.doneVals.length = K ∧
  (s.lockHeld = false → s.nLocked = 0 ∧ s.nFetching = 0) ∧
  s.nLocked + s.nFetching ≤ 1 ∧
  (0 < s.nFetching → s.cache = none) ∧
  (∀ v, s.cache = some v → v = v0) ∧
  s.fetchCount = (if s.cache.isSome then 1 else 0) + s.nFetching ∧
  (∀ v ∈ s.doneVals, v = v0) ∧
  (s.doneVals ≠ [] → s.cache = some v0)

/-! # Lemmas -/

/-! ## Deduplication lemmas -/

theorem uniqByAux_sublist {α β : Type} [DecidableEq β] (f : α → β) (l : List α) :
    ∀ seen : List β, (uniqByAux f seen l).Sublist l := by
  induction l with
  | nil => intro seen; simp [uniqByAux]
  | cons x xs ih =>
    intro seen
    simp only [uniqByAux]
    split
    · exact (ih seen).trans (List.sublist_cons_self x xs)
    · exact (ih (f x :: seen)).cons₂ x

theorem uniqByAux_keys {α β : Type} [DecidableEq β] (f : α → β) (l : List α) :
    ∀ seen : List β,
      ((uniqByAux f seen l).map f).Nodup ∧
        ∀ b ∈ (uniqByAux f seen l).map f, b ∉ seen := by
  induction l with
  | nil => intro seen; simp [uniqByAux]
  | cons x xs ih =>
    intro seen
    simp only [uniqByAux]
    split
    · exact ⟨(ih seen).1, (ih seen).2⟩
    · rename_i hnotseen
      obtain ⟨hnd, hni⟩ := ih (f x :: seen)
      refine ⟨?_, ?_⟩
      · simp only [List.map_cons, List.nodup_cons]
        refine ⟨fun hmem => ?_, hnd⟩
        exact (hni _ hmem) (List.mem_cons_self _ _)
      · intro b hb
        simp only [List.map_cons, List.mem_cons] at hb
        rcases hb with hb | hb
        · subst hb; exact hnotseen
        · intro hbs
          exact (hni b hb) (List.mem_cons_of_mem _ hbs)

theorem mem_uniqByAux {α β : Type} [DecidableEq β] (f : α → β) (l : List α) :
    ∀ (seen : List β) (y : α),
      (∀ a ∈ l, ∀ b ∈ l, f a = f b → a = b) → y ∈ l → f y ∉ seen →
        y ∈ uniqByAux f seen l := by
  induction l with
  | nil => intro seen y _ hy; exact absurd hy (List.not_mem_nil y)
  | cons x xs ih =>
    intro seen y hinj hy hns
    simp only [uniqByAux]
    split
    · rename_i hseen
      rcases List.mem_cons.mp hy with rfl | hy'
      · exact absurd hseen hns
      · exact ih seen y
          (fun a ha b hb => hinj a (List.mem_cons_of_mem _ ha) b (List.mem_cons_of_mem _ hb))
          hy' hns
    · by_cases hyx : y = x
      · subst hyx; exact List.mem_cons_self _ _
      · have hy' : y ∈ xs := by
          rcases List.mem_cons.mp hy with h | h
          · exact absurd h hyx
          · exact h
        have hfy : f y ≠ f x := fun heq =>
          hyx (hinj y hy x (List.mem_cons_self x xs) heq)
        refine List.mem_cons_of_mem _ (ih (f x :: seen) y
          (fun a ha b hb => hinj a (List.mem_cons_of_mem _ ha) b (List.mem_cons_of_mem _ hb))
          hy' ?_)
        intro hmem
        rcases List.mem_cons.mp hmem with heq | hmem'
        · exact hfy heq
        · exact hns hmem'

theorem uniqBy_sublist {α β : Type} [DecidableEq β] (f : α → β) (l : List α) :
    (uniqBy f l).Sublist l :=
  uniqByAux_sublist f l []

theorem uniqBy_keys_nodup {α β : Type} [DecidableEq β] (f : α → β) (l : List α) :
    ((uniqBy f l).map f).Nodup :=
  (uniqByAux_keys f l []).1

theorem mem_uniqBy {α β : Type} [DecidableEq β] (f : α → β) (l : List α) (y : α)
    (hinj : ∀ a ∈ l, ∀ b ∈ l, f a = f b → a = b) :
    y ∈ uniqBy f l ↔ y ∈ l := by
  constructor
  · intro hy; exact (uniqBy_sublist f l).subset hy
  · intro hy
    exact mem_uniqByAux f l [] y hinj hy (List.not_mem_nil _)

/-! ## Resolver structure lemmas -/

theorem resolveNetworks_ok_eq {all : List Network} {terms : List NetworkSelectorTerm}
    {zone : String} {l : List Network} (h : ResolveNetworks all terms zone = .ok l) :
    l = (uniqBy Network.id (terms.flatMap (networkTermMatches all))).filter networkStateOk ∧
      l ≠ [] := by
  simp only [ResolveNetworks] at h
  split at h
  · exact absurd h (by simp)
  · rename_i hne
    injection h with h
    subst h
    exact ⟨rfl, by simpa [List.isEmpty_iff] using hne⟩

theorem resolveTemplates_ok_eq {all : List Template} {terms : List TemplateSelectorTerm}
    {zone : String} {l : List Template} (h : ResolveTemplates all terms zone = .ok l) :
    l = (uniqBy Template.id (terms.flatMap (templateTermMatches all))).filter templateReady ∧
      l ≠ [] := by
  simp only [ResolveTemplates] at h
  split at h
  · exact absurd h (by simp)
  · rename_i hne
    injection h with h
    subst h
    exact ⟨rfl, by simpa [List.isEmpty_iff] using hne⟩

theorem networkTermMatches_subset (all : List Network) (t : NetworkSelectorTerm) :
    ∀ n ∈ networkTermMatches all t, n ∈ all := by
  intro n hn
  unfold networkTermMatches at hn
  split at hn
  · rename_i n' heq
    split at heq
    · simp only [List.mem_singleton] at hn
      exact hn ▸ List.mem_of_find?_eq_some heq
    · exact absurd heq (by simp)
  · split at hn
    · rename_i n' heq
      split at heq
      · simp only [List.mem_singleton] at hn
        exact hn ▸ List.mem_of_find?_eq_some heq
      · exact absurd heq (by simp)
    · split at hn
      · exact List.mem_of_mem_filter hn
      · exact absurd hn (List.not_mem_nil n)

theorem templateTermMatches_subset (all : List Template) (t : TemplateSelectorTerm) :
    ∀ x ∈ templateTermMatches all t, x ∈ all := by
  intro x hx
  simp only [templateTermMatches] at hx
  split at hx
  · rename_i x' heq
    split at heq
    · simp only [List.mem_singleton] at hx
      exact hx ▸ List.mem_of_find?_eq_some heq
    · exact absurd heq (by simp)
  · split at hx
    · rename_i x' heq
      split at heq
      · simp only [List.mem_singleton] at hx
        exact hx ▸ List.mem_of_find?_eq_some heq
      · exact absurd heq (by simp)
    · repeat' split at hx
      all_goals first
        | exact List.mem_of_mem_filter (List.mem_of_mem_filter hx)
        | exact List.mem_of_mem_filter hx
        | exact hx
        | exact absurd hx (List.not_mem_nil x)

/-! ## Concrete fixtures shared by witnesses -/

/-- Fixture: an Implemented network. -/
def net1 : Network := { id := "net-1", name := "k8s-net", state := "Implemented" }

/-- Fixture: a ready template. -/
def tmpl1 : Template :=
  { id := "tmpl-1", name := "ubuntu-22", osTypeName := "ubuntu",
    status := "Download Complete", isReady := true }

/-- Fixture: an enabled zone. -/
def zone1 : Zone := { id := "zone-1-id", name := "zone-1", allocationState := "Enabled" }

/-- Fixture: a service offering. -/
def off1 : ServiceOffering := { id := "off-1", name := "small", cpunumber := 1, memory := 512 }

/-! # Claims -/

/-- Claim C1, counterexample: the claim demands that resolving
service-offering selector terms that match no offering must fail, but
`resolveServiceOfferings` applied to a non-empty inventory and a term
matching nothing returns a successful empty list, not an error. -/
theorem offering_no_match_empty_success :
    resolveServiceOfferings [off1] [({ name := "medium" } : ServiceOfferingSelectorTerm)] =
      .ok [] := rfl

/-- Claim C1 (amended): the network and template resolvers never return a
successful empty result (an empty post-filter result is an error), and a
successful zone lookup always returns a matching inventory element (so an
empty or non-matching inventory is an error); the service-offering
resolver, however, returns the filtered list unconditionally — a
no-match there is a successful empty list, not an error. -/
theorem resolvers_no_match_error_except_offerings :
    (∀ (all : List Network) terms zone l,
        ResolveNetworks all terms zone = .ok l → l ≠ []) ∧
    (∀ (all : List Template) terms zone l,
        ResolveTemplates all terms zone = .ok l → l ≠ []) ∧
    (∀ (zones : List Zone) name z,
        zoneGetByName zones name = .ok z → z ∈ zones ∧ z.name = name) ∧
    (∀ offerings terms,
        resolveServiceOfferings offerings terms =
          .ok (filterServiceOfferings offerings terms)) := by
  refine ⟨?_, ?_, ?_, fun _ _ => rfl⟩
  · intro all terms zone l h
    exact (resolveNetworks_ok_eq h).2
  · intro all terms zone l h
    exact (resolveTemplates_ok_eq h).2
  · intro zones name z h
    simp only [zoneGetByName] at h
    split at h
    · rename_i z' heq
      injection h with h
      subst h
      exact ⟨List.mem_of_find?_eq_some heq, eq_of_beq (List.find?_eq_some.mp heq).1⟩
    · exact absurd h (by simp)

/-- Claim C1 witness: the amended statement applied at concrete inputs. -/
theorem resolvers_no_match_error_except_offerings_witness :
    ([net1] ≠ ([] : List Network)) ∧ ([tmpl1] ≠ ([] : List Template)) ∧
      (zone1 ∈ [zone1] ∧ zone1.name = "zone-1") :=
  ⟨resolvers_no_match_error_except_offerings.1 [net1]
      [({ name := "k8s-net" } : NetworkSelectorTerm)] "zone-1" [net1] (by rfl),
   resolvers_no_match_error_except_offerings.2.1 [tmpl1]
      [({ name := "ubuntu-22" } : TemplateSelectorTerm)] "zone-1" [tmpl1] (by rfl),
   resolvers_no_match_error_except_offerings.2.2.1 [zone1] "zone-1" zone1 (by rfl)⟩

/-- Fixture: the failing input of claim C2 — a zone that exists but is
administratively Disabled. -/
def disabledZone : Zone := { id := "zone-1-id", name := "zone-1", allocationState := "Disabled" }

/-- Claim C2: evaluation of the code at the failing input.  With the
configured zone present but Disabled, the reconcile pass's zone check
(`GetByName`, which ignores `AllocationState`) succeeds, so the pass
proceeds to attempt network resolution — its outcome here is
`NetworkResolutionFailed`, not `ZoneValidationFailed` — even though the
provider's own `ValidateZone` (unused by the reconciler) rejects this very
zone. -/
theorem reconcile_disabled_zone_attempts_network_resolution :
    zoneGetByName [disabledZone] "zone-1" = .ok disabledZone ∧
    validateZone [disabledZone] "zone-1" =
      .error "zone zone-1 is not enabled (state: Disabled)" ∧
    reconcileNodeClass [disabledZone] [] [] { zone := "zone-1" } =
      ("NetworkResolutionFailed", [.zoneValidation, .networkResolution]) ∧
    ReconcileOp.networkResolution ∈
      (reconcileNodeClass [disabledZone] [] [] { zone := "zone-1" }).2 := by
  have h3 : reconcileNodeClass [disabledZone] [] [] { zone := "zone-1" } =
      ("NetworkResolutionFailed", [.zoneValidation, .networkResolution]) := rfl
  exact ⟨rfl, rfl, h3, by rw [h3]; simp⟩

/-- Claim C3, counterexample: a resource carrying the key `"env"` with an
EMPTY value still matches the wildcard term — the claim's "some non-empty
value" is not what the code checks. -/
theorem wildcard_matches_empty_value :
    matchesTags [("env", "")] [("env", "*")] = true ∧
      List.lookup "env" [("env", "")] = some "" := ⟨rfl, rfl⟩

/-- Claim C3 (amended): a term `{Tags: {env: "*"}}` matches a resource
exactly when the resource carries the key `"env"` (with any value, the
empty string included), and matches nothing when the key is absent. -/
theorem wildcard_matches_iff_key_present (resourceTags : List (String × String)) :
    matchesTags resourceTags [("env", "*")] = true ↔
      (resourceTags.lookup "env").isSome := by
  simp only [matchesTags, List.all_cons, List.all_nil, Bool.and_true]
  cases h : resourceTags.lookup "env" <;> simp

/-- Claim C4: for any list of selector terms, a successful resolve result is
exactly the per-term accumulated matches deduplicated by ID and then
post-filtered by readiness/state (dedup after all terms, before the
post-filter); it carries no duplicate IDs; it is a sublist of the
accumulated matches (so order is first occurrence); and, when inventory IDs
are unique, an element is in the result iff some term matched it (set
union) and it passes the kind-specific post-filter — for networks (state in
Implemented/Setup) and templates (IsReady and Download Complete) alike. -/
theorem resolve_union_dedup_first_seen :
    (∀ (all : List Network) terms zone l, ResolveNetworks all terms zone = .ok l →
      l = (uniqBy Network.id (terms.flatMap (networkTermMatches all))).filter networkStateOk ∧
      (l.map Network.id).Nodup ∧
      l.Sublist ((terms.flatMap (networkTermMatches all)).filter networkStateOk) ∧
      ((all.map Network.id).Nodup →
        ∀ n, n ∈ l ↔ ((∃ t ∈ terms, n ∈ networkTermMatches all t) ∧ networkStateOk n = true))) ∧
    (∀ (all : List Template) terms zone l, ResolveTemplates all terms zone = .ok l →
      l = (uniqBy Template.id (terms.flatMap (templateTermMatches all))).filter templateReady ∧
      (l.map Template.id).Nodup ∧
      l.Sublist ((terms.flatMap (templateTermMatches all)).filter templateReady) ∧
      ((all.map Template.id).Nodup →
        ∀ x, x ∈ l ↔ ((∃ t ∈ terms, x ∈ templateTermMatches all t) ∧ templateReady x = true))) := by
  constructor
  · intro all terms zone l hok
    obtain ⟨hl, _⟩ := resolveNetworks_ok_eq hok
    subst hl
    have hinj : (all.map Network.id).Nodup →
        ∀ a ∈ terms.flatMap (networkTermMatches all),
          ∀ b ∈ terms.flatMap (networkTermMatches all), a.id = b.id → a = b := by
      intro hids a ha b hb hab
      obtain ⟨ta, hta, hata⟩ := List.mem_flatMap.mp ha
      obtain ⟨tb, htb, hbtb⟩ := List.mem_flatMap.mp hb
      exact List.inj_on_of_nodup_map hids
        (networkTermMatches_subset all ta a hata)
        (networkTermMatches_subset all tb b hbtb) hab
    refine ⟨rfl, ?_, ?_, ?_⟩
    · exact ((List.filter_sublist _).map Network.id).nodup (uniqBy_keys_nodup _ _)
    · exact (uniqBy_sublist Network.id _).filter _
    · intro hids n
      constructor
      · intro hn
        obtain ⟨hnu, hst⟩ := List.mem_filter.mp hn
        have hnm := (mem_uniqBy _ _ _ (hinj hids)).mp hnu
        obtain ⟨t, ht, hnt⟩ := List.mem_flatMap.mp hnm
        exact ⟨⟨t, ht, hnt⟩, hst⟩
      · rintro ⟨⟨t, ht, hnt⟩, hst⟩
        exact List.mem_filter.mpr
          ⟨(mem_uniqBy _ _ _ (hinj hids)).mpr (List.mem_flatMap.mpr ⟨t, ht, hnt⟩), hst⟩
  · intro all terms zone l hok
    obtain ⟨hl, _⟩ := resolveTemplates_ok_eq hok
    subst hl
    have hinj : (all.map Template.id).Nodup →
        ∀ a ∈ terms.flatMap (templateTermMatches all),
          ∀ b ∈ terms.flatMap (templateTermMatches all), a.id = b.id → a = b := by
      intro hids a ha b hb hab
      obtain ⟨ta, hta, hata⟩ := List.mem_flatMap.mp ha
      obtain ⟨tb, htb, hbtb⟩ := List.mem_flatMap.mp hb
      exact List.inj_on_of_nodup_map hids
        (templateTermMatches_subset all ta a hata)
        (templateTermMatches_subset all tb b hbtb) hab
    refine ⟨rfl, ?_, ?_, ?_⟩
    · exact ((List.filter_sublist _).map Template.id).nodup (uniqBy_keys_nodup _ _)
    · exact (uniqBy_sublist Template.id _).filter _
    · intro hids x
      constructor
      · intro hx
        obtain ⟨hxu, hst⟩ := List.mem_filter.mp hx
        have hxm := (mem_uniqBy _ _ _ (hinj hids)).mp hxu
        obtain ⟨t, ht, hxt⟩ := List.mem_flatMap.mp hxm
        exact ⟨⟨t, ht, hxt⟩, hst⟩
      · rintro ⟨⟨t, ht, hxt⟩, hst⟩
        exact List.mem_filter.mpr
          ⟨(mem_uniqBy _ _ _ (hinj hids)).mpr (List.mem_flatMap.mpr ⟨t, ht, hxt⟩), hst⟩

/-- Claim C4 witness: the theorem applied to concrete one-network and
one-template resolves. -/
theorem resolve_union_dedup_first_seen_witness :
    ([net1].map Network.id).Nodup ∧ ([tmpl1].map Template.id).Nodup :=
  ⟨(resolve_union_dedup_first_seen.1 [net1]
      [({ name := "k8s-net" } : NetworkSelectorTerm)] "zone-1" [net1] (by rfl)).2.1,
   (resolve_union_dedup_first_seen.2 [tmpl1]
      [({ name := "ubuntu-22" } : TemplateSelectorTerm)] "zone-1" [tmpl1] (by rfl)).2.1⟩

/-! ## Provider-ID lemmas -/

/-- The scheme prefix of a provider ID. -/
def csPrefix : List Char := "cloudstack://".data

theorem splitOnSlash_ne_nil (l : List Char) : splitOnSlash l ≠ [] := by
  cases l with
  | nil => simp [splitOnSlash]
  | cons c cs =>
    rw [splitOnSlash]
    split
    · simp
    · split <;> simp

theorem splitOnSlash_no_slash (l : List Char) (h : '/' ∉ l) : splitOnSlash l = [l] := by
  induction l with
  | nil => rfl
  | cons c cs ih =>
    have hc : c ≠ '/' := fun hh => h (hh ▸ List.mem_cons_self c cs)
    have hcs : '/' ∉ cs := fun hh => h (List.mem_cons_of_mem _ hh)
    rw [splitOnSlash, ih hcs]
    simp [hc]

theorem splitOnSlash_length_ge_two (l : List Char) (h : '/' ∈ l) :
    2 ≤ (splitOnSlash l).length := by
  induction l with
  | nil => cases h
  | cons c cs ih =>
    rw [splitOnSlash]
    rcases hs : splitOnSlash cs with _ | ⟨r, rs⟩
    · exact absurd hs (splitOnSlash_ne_nil cs)
    · by_cases hc : c = '/'
      · simp [hc]
      · have hcs : '/' ∈ cs := by
          rcases List.mem_cons.mp h with h1 | h1
          · exact absurd h1.symm hc
          · exact h1
        have h2 := ih hcs
        rw [hs] at h2
        simp only [List.length_cons] at h2 ⊢
        simp [hc]
        omega

theorem splitOnSlash_append_slash (xs ys : List Char) :
    (splitOnSlash (xs ++ '/' :: ys)).getLast? = (splitOnSlash ys).getLast? := by
  induction xs with
  | nil =>
    rw [List.nil_append, splitOnSlash]
    rcases hs : splitOnSlash ys with _ | ⟨r, rs⟩
    · exact absurd hs (splitOnSlash_ne_nil ys)
    · simp
  | cons c xs ih =>
    rw [List.cons_append, splitOnSlash]
    rcases hs : splitOnSlash (xs ++ '/' :: ys) with _ | ⟨r, rs⟩
    · exact absurd hs (splitOnSlash_ne_nil _)
    · have hlen : 2 ≤ (r :: rs).length := by
        rw [← hs]
        exact splitOnSlash_length_ge_two _ (by simp)
      have hrs : rs ≠ [] := by
        cases rs
        · simp at hlen
        · simp
      rw [← ih, hs]
      by_cases hc : c = '/'
      · simp [hc]
      · simp only [if_neg hc]
        rcases rs with _ | ⟨r2, rs2⟩
        · exact absurd rfl hrs
        · rfl

theorem parse_of_getLast? (s : List Char) (hs : s ≠ []) (p : List Char)
    (hp : (splitOnSlash s).getLast? = some p) : ParseProviderID s = .ok p := by
  unfold ParseProviderID
  rw [if_neg hs]
  rcases hrev : (splitOnSlash s).reverse with _ | ⟨q, rest⟩
  · exact absurd (by simpa using congrArg List.reverse hrev) (splitOnSlash_ne_nil s)
  · have hq : (splitOnSlash s).getLast? = some q := by
      rw [← List.head?_reverse, hrev]
      rfl
    rw [hp] at hq
    injection hq with hq
    subst hq
    rfl

theorem formatProviderID_ne_nil (zone id : List Char) :
    FormatProviderID zone id ≠ [] := by
  intro h
  have hlen := congrArg List.length h
  simp only [FormatProviderID, List.length_append, List.length_cons, List.length_nil] at hlen
  omega

/-- Claim C8: `FormatProviderID` produces exactly
`"cloudstack://<zone>/<instance-id>"`; for every zone name and every
instance ID containing no `/`, parsing the formatted ID returns the ID
without error; and parsing any non-empty provider-ID string returns its
last `/`-delimited segment. -/
theorem providerID_format_parse :
    (∀ zone id : List Char, FormatProviderID zone id = "cloudstack://".data ++ zone ++ '/' :: id) ∧
    (∀ zone id : List Char, '/' ∉ id →
        ParseProviderID (FormatProviderID zone id) = .ok id) ∧
    (∀ s : List Char, s ≠ [] →
        ∃ p, (splitOnSlash s).getLast? = some p ∧ ParseProviderID s = .ok p) := by
  refine ⟨fun zone id => rfl, ?_, ?_⟩
  · intro zone id hid
    apply parse_of_getLast? _ (formatProviderID_ne_nil zone id)
    have h1 : FormatProviderID zone id = (csPrefix ++ zone) ++ '/' :: id := by
      simp [FormatProviderID, csPrefix, List.append_assoc]
    rw [h1, splitOnSlash_append_slash, splitOnSlash_no_slash id hid]
    rfl
  · intro s hs
    obtain ⟨p, hp⟩ := Option.isSome_iff_exists.mp
      (List.getLast?_isSome.mpr (splitOnSlash_ne_nil s))
    exact ⟨p, hp, parse_of_getLast? s hs p hp⟩

/-- Claim C8 witness: round trip at the concrete provider ID
`cloudstack://zone-1/vm-42`. -/
theorem providerID_format_parse_witness :
    ('/' ∉ "vm-42".data) ∧
      ParseProviderID (FormatProviderID "zone-1".data "vm-42".data) = .ok "vm-42".data :=
  ⟨by decide, providerID_format_parse.2.1 "zone-1".data "vm-42".data (by decide)⟩

/-! ## Wait-loop lemmas -/

theorem waitForVMState_timeout (poll : Nat → Except String (List VMRecord))
    (vmID target : String)
    (h : ∀ t, ∃ vm rest, poll t = .ok (vm :: rest) ∧ vm.state ≠ target) :
    ∀ fuel tick, waitForVMState poll vmID target tick fuel =
      .error ("timeout waiting for VM " ++ vmID ++ " to reach state " ++ target) := by
  intro fuel
  induction fuel with
  | zero => intro tick; rfl
  | succ n ih =>
    intro tick
    obtain ⟨vm, rest, hp, hst⟩ := h tick
    rw [waitForVMState, hp]
    simp only []
    rw [if_neg (by simpa using hst)]
    exact ih (tick + 1)

/-- Claim C5: when the path up to deploy succeeds (instance type selected,
zone / network / template / offering resolved, deploy accepted) but every
poll of the 5-minute/5-second wait loop reports the instance in a
non-Running state, `Create` returns the wrapped timeout error, the only
backend effect issued is the deploy itself, and in particular the
tag-creation call is never issued. -/
theorem create_timeout_no_tags
    (env : CreateEnv) (spec : CloudStackNodeClassSpec) (nodeClassName : String)
    (claim : NodeClaimMeta) (itName : String) (itRest : List String) (clusterName : String)
    (zid vmID : String) (nets : List Network) (tmpls : List Template) (soid : String)
    (hzone : env.zoneIDOf spec.zone = .ok zid)
    (hnets : ResolveNetworks env.networks spec.networkSelectorTerms spec.zone = .ok nets)
    (htmpls : ResolveTemplates env.templates spec.templateSelectorTerms spec.zone = .ok tmpls)
    (hso : env.serviceOfferingIDOf itName = .ok soid)
    (hdeploy : env.deployResp = .ok vmID)
    (hpoll : ∀ t, ∃ vm rest, env.poll t = .ok (vm :: rest) ∧ vm.state ≠ "Running") :
    instanceCreate env spec nodeClassName claim (itName :: itRest) clusterName =
      (.error ("waiting for VM to be running: " ++
          ("timeout waiting for VM " ++ vmID ++ " to reach state " ++ "Running")),
        [.deployVM ("karpenter-" ++ claim.name)]) ∧
    (∀ id tags, CSEffect.createTags id tags ∉
      (instanceCreate env spec nodeClassName claim (itName :: itRest) clusterName).2) := by
  have hnne := (resolveNetworks_ok_eq hnets).2
  have htne := (resolveTemplates_ok_eq htmpls).2
  have h1 : instanceCreate env spec nodeClassName claim (itName :: itRest) clusterName =
      (.error ("waiting for VM to be running: " ++
          ("timeout waiting for VM " ++ vmID ++ " to reach state " ++ "Running")),
        [.deployVM ("karpenter-" ++ claim.name)]) := by
    rcases hn : nets with _ | ⟨n0, nrest⟩
    · exact absurd (hn ▸ rfl) hnne
    rcases ht : tmpls with _ | ⟨t0, trest⟩
    · exact absurd (ht ▸ rfl) htne
    subst hn ht
    simp only [instanceCreate, hzone, hnets, htmpls, hso, hdeploy,
      waitForVMState_timeout env.poll vmID "Running" hpoll vmWaitPolls 0]
  refine ⟨h1, ?_⟩
  intro id tags hmem
  rw [h1] at hmem
  simp at hmem

/-- Fixture: the VM stuck in a non-Running state. -/
def stuckVM : VMRecord := { id := "vm-42", state := "Starting" }

/-- Fixture: a NodeClass spec whose selectors match the fixtures. -/
def specFix : CloudStackNodeClassSpec :=
  { zone := "zone-1",
    networkSelectorTerms := [{ name := "k8s-net" }],
    serviceOfferingSelectorTerms := [{ name := "small" }],
    templateSelectorTerms := [{ name := "ubuntu-22" }] }

/-- Fixture: a Create environment whose deploy succeeds but whose VM never
leaves the Starting state. -/
def timeoutEnv : CreateEnv :=
  { zoneIDOf := fun _ => .ok "zone-1-id"
    networks := [net1]
    templates := [tmpl1]
    serviceOfferingIDOf := fun _ => .ok "off-1"
    deployResp := .ok "vm-42"
    poll := fun _ => .ok [stuckVM]
    createTagsResp := .ok () }

/-- Claim C5 witness: the theorem applied to the concrete stuck
environment — the tag-creation effect for the stuck VM is absent from the
effect trace. -/
theorem create_timeout_no_tags_witness :
    CSEffect.createTags "vm-42"
        (buildTags "cluster-1" "default" [] { name := "claim-1" }) ∉
      (instanceCreate timeoutEnv specFix "default" { name := "claim-1" } ["small"]
        "cluster-1").2 :=
  (create_timeout_no_tags timeoutEnv specFix "default" { name := "claim-1" } "small" []
    "cluster-1" "zone-1-id" "vm-42" [net1] [tmpl1] "off-1" rfl (by rfl) (by rfl) rfl rfl
    (fun _ => ⟨stuckVM, [], rfl, by decide⟩)).2 "vm-42"
    (buildTags "cluster-1" "default" [] { name := "claim-1" })

/-! ## Map lemmas -/

theorem lookup_filter_ne {α : Type} (m : List (String × α)) (id : String) :
    (m.filter (fun kv => kv.1 != id)).lookup id = none := by
  induction m with
  | nil => rfl
  | cons kv rest ih =>
    obtain ⟨k, v⟩ := kv
    rw [List.filter_cons]
    by_cases h : k = id
    · rw [if_neg (by simp [h])]
      exact ih
    · rw [if_pos (by simp [h])]
      simp only [List.lookup]
      rw [show (id == k) = false from beq_eq_false_iff_ne.mpr (Ne.symm h)]
      exact ih

/-- Claim C6: deleting an already-absent instance (cold cache, zero-count
list response, recognised as the not-found error by `Get`) succeeds with no
destroy call issued and the cache untouched; deleting an existing instance
issues exactly one destroy call with the expunge flag set and evicts the
instance's entry from the per-ID cache. -/
theorem delete_idempotent_and_expunge :
    (∀ env cache id, List.lookup id cache = none → env.listVMs = .ok [] →
        instanceDelete env cache id = (.ok (), [], cache)) ∧
    (∀ env cache id inst cache1, instanceGet env cache id = (.ok inst, cache1) →
        env.destroyResp = .ok () →
        instanceDelete env cache id =
          (.ok (), [.destroyVM id true], cache1.filter (fun kv => kv.1 != id)) ∧
        (cache1.filter (fun kv => kv.1 != id)).lookup id = none) := by
  constructor
  · intro env cache id hc hvm
    simp only [instanceDelete, instanceGet, hc, hvm]
  · intro env cache id inst cache1 hget hdestroy
    refine ⟨?_, lookup_filter_ne cache1 id⟩
    simp only [instanceDelete, hget, hdestroy]

/-- Fixture: a backend with no instance `vm-42`. -/
def delEnvAbsent : InstanceEnv :=
  { listVMs := .ok [], tagsOf := fun _ => [], destroyResp := .ok () }

/-- Fixture: a running VM. -/
def runningVM : VMRecord := { id := "vm-42", state := "Running" }

/-- Fixture: a backend where instance `vm-42` exists. -/
def delEnvPresent : InstanceEnv :=
  { listVMs := .ok [runningVM], tagsOf := fun _ => [], destroyResp := .ok () }

/-- Claim C6 witness: the theorem applied to a concrete absent instance and
a concrete present instance. -/
theorem delete_idempotent_and_expunge_witness :
    instanceDelete delEnvAbsent [] "vm-42" = (.ok (), [], []) ∧
    (instanceDelete delEnvPresent [] "vm-42" =
        (.ok (), [.destroyVM "vm-42" true],
          (tagInsert "vm-42" (convertToInstance runningVM []) []).filter
            (fun kv => kv.1 != "vm-42")) ∧
      ((tagInsert "vm-42" (convertToInstance runningVM []) []).filter
          (fun kv => kv.1 != "vm-42")).lookup "vm-42" = none) :=
  ⟨delete_idempotent_and_expunge.1 delEnvAbsent [] "vm-42" rfl rfl,
   delete_idempotent_and_expunge.2 delEnvPresent [] "vm-42"
     (convertToInstance runningVM [])
     (tagInsert "vm-42" (convertToInstance runningVM []) []) rfl rfl⟩

/-! ## Hash lemmas -/

theorem xorFold_perm (l1 l2 : List Nat) (h : l1.Perm l2) : xorFold l1 = xorFold l2 := by
  induction h with
  | nil => rfl
  | cons x _ ih => simp only [xorFold, List.foldr_cons] at ih ⊢; rw [ih]
  | swap x y l =>
    simp only [xorFold, List.foldr_cons]
    rw [← Nat.xor_assoc, Nat.xor_comm y x, Nat.xor_assoc]
  | trans _ _ ih1 ih2 => exact ih1.trans ih2

/-- Claim C7: two NodeClass specs that differ only in the order of elements
within their selector-term lists (network, service-offering, template) have
the same configuration hash — the selector-term list fields are hashed as
unordered sets. -/
theorem hashSpec_perm_invariant (s1 s2 : CloudStackNodeClassSpec)
    (hzone : s1.zone = s2.zone)
    (hn : s1.networkSelectorTerms.Perm s2.networkSelectorTerms)
    (hs : s1.serviceOfferingSelectorTerms.Perm s2.serviceOfferingSelectorTerms)
    (ht : s1.templateSelectorTerms.Perm s2.templateSelectorTerms)
    (hu : s1.userData = s2.userData) (htags : s1.tags = s2.tags)
    (hr : s1.rootDiskSize = s2.rootDiskSize) (hd : s1.diskOffering = s2.diskOffering)
    (hk : s1.sshKeyPair = s2.sshKeyPair) :
    hashSpec s1 = hashSpec s2 := by
  unfold hashSpec
  rw [hzone, hu, htags, hr, hd, hk,
    xorFold_perm _ _ (hn.map netTermHash),
    xorFold_perm _ _ (hs.map offTermHash),
    xorFold_perm _ _ (ht.map tmplTermHash)]

/-- Fixture: a spec with two-element selector-term lists. -/
def specA : CloudStackNodeClassSpec :=
  { zone := "zone-1",
    networkSelectorTerms := [{ name := "a" }, { name := "b" }],
    serviceOfferingSelectorTerms := [{ name := "s1" }, { name := "s2" }],
    templateSelectorTerms := [{ name := "t1" }, { name := "t2" }] }

/-- Fixture: `specA` with each selector-term list reversed. -/
def specB : CloudStackNodeClassSpec :=
  { zone := "zone-1",
    networkSelectorTerms := [{ name := "b" }, { name := "a" }],
    serviceOfferingSelectorTerms := [{ name := "s2" }, { name := "s1" }],
    templateSelectorTerms := [{ name := "t2" }, { name := "t1" }] }

/-- Claim C7 witness: the theorem applied to the two concrete reordered
specs. -/
theorem hashSpec_perm_invariant_witness : hashSpec specA = hashSpec specB :=
  hashSpec_perm_invariant specA specB rfl
    (List.Perm.swap _ _ _) (List.Perm.swap _ _ _) (List.Perm.swap _ _ _)
    rfl rfl rfl rfl rfl

/-! ## Tag-building lemmas -/

theorem lookup_tagInsert_self {α : Type} (k : String) (v : α) (m : List (String × α)) :
    (tagInsert k v m).lookup k = some v := by
  simp [tagInsert, List.lookup]

theorem lookup_filter_other {α : Type} (m : List (String × α)) (k k' : String)
    (h : k' ≠ k) : (m.filter (fun kv => kv.1 != k)).lookup k' = m.lookup k' := by
  induction m with
  | nil => rfl
  | cons kv rest ih =>
    obtain ⟨a, b⟩ := kv
    rw [List.filter_cons]
    by_cases ha : a = k
    · rw [if_neg (by simp [ha])]
      subst ha
      rw [ih]
      simp only [List.lookup]
      rw [show (k' == a) = false from beq_eq_false_iff_ne.mpr h]
    · rw [if_pos (by simp [ha])]
      simp only [List.lookup]
      cases hq : (k' == a)
      · exact ih
      · rfl

theorem lookup_tagInsert_other {α : Type} (k k' : String) (v : α)
    (m : List (String × α)) (h : k' ≠ k) :
    (tagInsert k v m).lookup k' = m.lookup k' := by
  simp only [tagInsert, List.lookup]
  rw [show (k' == k) = false from beq_eq_false_iff_ne.mpr h]
  exact lookup_filter_other m k k' h

theorem lookup_foldl_tagInsert_notin {α : Type} (rest : List (String × α)) :
    ∀ (base : List (String × α)) (k : String), k ∉ rest.map Prod.fst →
      (rest.foldl (fun m kv => tagInsert kv.1 kv.2 m) base).lookup k = base.lookup k := by
  induction rest with
  | nil => intro base k _; rfl
  | cons kv rest ih =>
    intro base k hk
    simp only [List.map_cons, List.mem_cons, not_or] at hk
    rw [List.foldl_cons, ih _ k hk.2, lookup_tagInsert_other _ _ _ _ hk.1]

theorem lookup_foldl_tagInsert_mem {α : Type} (specTags : List (String × α)) :
    ∀ (base : List (String × α)) (k : String) (v : α),
      (specTags.map Prod.fst).Nodup → (k, v) ∈ specTags →
      (specTags.foldl (fun m kv => tagInsert kv.1 kv.2 m) base).lookup k = some v := by
  induction specTags with
  | nil => intro base k v _ hmem; exact absurd hmem (List.not_mem_nil _)
  | cons kv rest ih =>
    intro base k v hnd hmem
    obtain ⟨a, b⟩ := kv
    simp only [List.map_cons, List.nodup_cons] at hnd
    rw [List.foldl_cons]
    rcases List.mem_cons.mp hmem with heq | hmem'
    · injection heq with h1 h2
      subst h1
      subst h2
      rw [lookup_foldl_tagInsert_notin rest _ k hnd.1]
      exact lookup_tagInsert_self k v base
    · exact ih _ k v hnd.2 hmem'

/-- Claim C10: the tag map built for a new instance maps every key of
`nodeClass.Spec.Tags` to the user-supplied value — user tags are merged
last, so a user tag whose key collides with an ownership key (managed-by,
the cluster-scoped ownership key, …) overrides it; and the CRD validation
on the tags field rejects only the empty key and the nodepool, nodeclaim
and nodeclass keys, so the managed-by and cluster keys are accepted by
validation. -/
theorem buildTags_user_tags_override :
    (∀ clusterName nodeClassName specTags claim k v,
        (specTags.map Prod.fst).Nodup → (k, v) ∈ specTags →
        (buildTags clusterName nodeClassName specTags claim).lookup k = some v) ∧
    (∀ tags, specTagsAllowed tags = true ↔
        ∀ kv ∈ tags, kv.1 ≠ "" ∧ kv.1 ≠ NodePoolTagKey ∧ kv.1 ≠ NodeClaimTagKey ∧
          kv.1 ≠ NodeClassTagKey) ∧
    specTagsAllowed
      [(ManagedByTagKey, "custom"), (ClusterNameTagKey ++ "/" ++ "c1", "custom")] = true := by
  refine ⟨?_, ?_, by rfl⟩
  · intro clusterName nodeClassName specTags claim k v hnd hmem
    unfold buildTags
    exact lookup_foldl_tagInsert_mem specTags _ k v hnd hmem
  · intro tags
    simp only [specTagsAllowed, NodePoolTagKey, NodeClaimTagKey, NodeClassTagKey,
      List.all_eq_true, Bool.and_eq_true, bne_iff_ne, ne_eq, Prod.forall]
    constructor <;> intro h a b hab <;> have := h a b hab <;> tauto

/-- Claim C10 witness: a user tag with the managed-by ownership key ends up
in the final tag map with the user's value. -/
theorem buildTags_user_tags_override_witness :
    (buildTags "c1" "default" [(ManagedByTagKey, "user-override")]
        { name := "claim-1" }).lookup ManagedByTagKey = some "user-override" :=
  buildTags_user_tags_override.1 "c1" "default" [(ManagedByTagKey, "user-override")]
    { name := "claim-1" } ManagedByTagKey "user-override" (by simp) (by simp)

/-! ## Cache-guard protocol lemmas -/

theorem guardInv_init {V : Type} (v0 : V) (K : Nat) : GuardInv v0 K (guardInit V K) := by
  refine ⟨?_, ?_, ?_, ?_, ?_, ?_, ?_, ?_⟩ <;> simp [guardInit, GuardInv]

theorem guardInv_step {V : Type} (v0 : V) (K : Nat) (s s' : GuardState V)
    (hinv : GuardInv v0 K s) (hstep : GuardStep v0 s s') : GuardInv v0 K s' := by
  obtain ⟨h1, h2, h3, h4, h5, h6, h7, h8⟩ := hinv
  cases hstep with
  | hitFast v hpos hc =>
    have hv : v = v0 := h5 v hc
    subst hv
    refine ⟨?_, h2, h3, h4, h5, h6, ?_, fun _ => hc⟩
    · dsimp only
      simp only [List.length_cons]
      omega
    · intro w hw
      rcases List.mem_cons.mp hw with rfl | hw'
      · rfl
      · exact h7 w hw'
  | missFast hpos hc =>
    refine ⟨?_, h2, h3, h4, h5, h6, h7, h8⟩
    dsimp only
    omega
  | acquire hpos hl =>
    obtain ⟨hL0, hF0⟩ := h2 hl
    refine ⟨?_, ?_, ?_, h4, h5, h6, h7, h8⟩
    · dsimp only
      omega
    · intro hfalse
      dsimp only at hfalse
      cases hfalse
    · dsimp only
      omega
  | hitLocked v hpos hc =>
    have hv : v = v0 := h5 v hc
    subst hv
    have hF0 : s.nFetching = 0 := by omega
    refine ⟨?_, ?_, ?_, ?_, h5, h6, ?_, fun _ => hc⟩
    · dsimp only
      simp only [List.length_cons]
      omega
    · intro _
      dsimp only
      constructor <;> omega
    · dsimp only
      omega
    · intro hf
      dsimp only at hf
      exact absurd hf (by omega)
    · intro w hw
      rcases List.mem_cons.mp hw with rfl | hw'
      · rfl
      · exact h7 w hw'
  | startFetch hpos hc =>
    have hL1 : s.nLocked = 1 := by omega
    have hF0 : s.nFetching = 0 := by omega
    have hlock : s.lockHeld = true := by
      cases hl : s.lockHeld
      · obtain ⟨h0, _⟩ := h2 hl
        omega
      · rfl
    have hfc : s.fetchCount = 0 := by
      rw [h6, hc]
      simp [hF0]
    refine ⟨?_, ?_, ?_, fun _ => hc, h5, ?_, h7, ?_⟩
    · dsimp only
      omega
    · intro hfalse
      dsimp only at hfalse
      rw [hlock] at hfalse
      cases hfalse
    · dsimp only
      omega
    · dsimp only
      rw [hc, hfc]
      simp
      omega
    · intro hne
      have hsome := h8 hne
      rw [hc] at hsome
      cases hsome
  | finishFetch hpos =>
    have hcn : s.cache = none := h4 hpos
    have hF1 : s.nFetching = 1 := by omega
    have hL0 : s.nLocked = 0 := by omega
    have hfc : s.fetchCount = 1 := by
      rw [h6, hcn]
      simp [hF1]
    refine ⟨?_, ?_, ?_, ?_, ?_, ?_, ?_, fun _ => rfl⟩
    · dsimp only
      simp only [List.length_cons]
      omega
    · intro _
      dsimp only
      constructor <;> omega
    · dsimp only
      omega
    · intro hf
      dsimp only at hf
      exact absurd hf (by omega)
    · intro v hv
      dsimp only at hv
      injection hv with h
      exact h.symm
    · dsimp only
      rw [hfc]
      simp
      omega
    · intro w hw
      rcases List.mem_cons.mp hw with rfl | hw'
      · rfl
      · exact h7 w hw'

theorem guardInv_reach {V : Type} (v0 : V) (K : Nat) (s s' : GuardState V)
    (h : GuardReach v0 s s') (hinv : GuardInv v0 K s) : GuardInv v0 K s' := by
  induction h with
  | refl => exact hinv
  | tail _ hstep ih => exact guardInv_step v0 K _ _ ih hstep

/-- Claim C9: in every interleaving of K ≥ 1 concurrent `List` callers
racing on one cold cache key, once all callers have finished, the backend
"list all" fetch was invoked exactly once and every caller observed the
same fetched value `v0`. -/
theorem cache_guard_fetch_exactly_once {V : Type} (v0 : V) (K : Nat) (s : GuardState V)
    (hreach : GuardReach v0 (guardInit V K) s)
    (hfin : s.nStart = 0 ∧ s.nWait = 0 ∧ s.nLocked = 0 ∧ s.nFetching = 0)
    (hK : 0 < K) :
    s.fetchCount = 1 ∧ s.doneVals.length = K ∧ ∀ v ∈ s.doneVals, v = v0 := by
  have hinv := guardInv_reach v0 K _ s hreach (guardInv_init v0 K)
  obtain ⟨h1, _, _, _, _, h6, h7, h8⟩ := hinv
  obtain ⟨e1, e2, e3, e4⟩ := hfin
  rw [e1, e2, e3, e4] at h1
  simp only [Nat.zero_add] at h1
  have hne : s.doneVals ≠ [] := by
    intro hnil
    rw [hnil] at h1
    simp at h1
    omega
  have hcache := h8 hne
  refine ⟨?_, h1, h7⟩
  rw [h6, e4, hcache]
  rfl

/-- Fixture: intermediate states of a one-caller run of the cache-guard
protocol. -/
def gs1 : GuardState Nat :=
  { nStart := 0, nWait := 1, nLocked := 0, nFetching := 0, doneVals := [],
    cache := none, lockHeld := false, fetchCount := 0 }

/-- Fixture: after acquiring the lock. -/
def gs2 : GuardState Nat :=
  { gs1 with nWait := 0, nLocked := 1, lockHeld := true }

/-- Fixture: after issuing the backend fetch. -/
def gs3 : GuardState Nat :=
  { gs2 with nLocked := 0, nFetching := 1, fetchCount := 1 }

/-- Fixture: the final state of the one-caller run. -/
def guardFinal : GuardState Nat :=
  { nStart := 0, nWait := 0, nLocked := 0, nFetching := 0, doneVals := [42],
    cache := some 42, lockHeld := false, fetchCount := 1 }

theorem guardRun_reaches_final : GuardReach 42 (guardInit Nat 1) guardFinal := by
  have t1 : GuardStep 42 (guardInit Nat 1) gs1 := GuardStep.missFast _ (by decide) rfl
  have t2 : GuardStep 42 gs1 gs2 := GuardStep.acquire _ (by decide) rfl
  have t3 : GuardStep 42 gs2 gs3 := GuardStep.startFetch _ (by decide) rfl
  have t4 : GuardStep 42 gs3 guardFinal := GuardStep.finishFetch _ (by decide)
  exact Relation.ReflTransGen.tail
    (Relation.ReflTransGen.tail
      (Relation.ReflTransGen.tail (Relation.ReflTransGen.tail Relation.ReflTransGen.refl t1)
        t2) t3) t4

/-- Claim C9 witness: the theorem applied to a concrete completed run of
one caller. -/
theorem cache_guard_fetch_exactly_once_witness :
    guardFinal.fetchCount = 1 ∧ guardFinal.doneVals.length = 1 ∧
      ∀ v ∈ guardFinal.doneVals, v = 42 :=
  cache_guard_fetch_exactly_once 42 1 guardFinal guardRun_reaches_final
    ⟨rfl, rfl, rfl, rfl⟩ (by decide)
